import Mathlib

/-!
Verification of the polling-driven real-estate automation pipeline
(`complete_automation.py`) against its natural-language specification.

The Python source is shallowly embedded below.  Numeric progress arithmetic
(Python floats, all values small and nonnegative) is modelled exactly over ℚ
with `Int.floor` standing for Python's `int()` truncation of nonnegative
values.  Spreadsheet records are modelled as association lists of string
fields (the values the CSV / Sheets backends deliver).  Collaborator calls
that the source wraps in `try`/`except` are modelled as `Except`-valued
environment functions, so that the exception paths of the orchestration code
are faithfully represented.
-/

namespace RealEstate

/-! ## ProgressTracker (complete_automation.py, lines 160-209)

`ProgressTracker.update(step, message, sub_progress)` computes

    overall_progress = int((step / self.total_steps) * 100)
    if sub_progress > 0:
        step_increment = (1 / self.total_steps) * (sub_progress / 100)
        overall_progress = int(((step + step_increment) / self.total_steps) * 100)

with `total_steps = 10`.  The arithmetic is embedded over ℚ. -/

def total_steps : Nat := 10

/-- The overall percent computed by `ProgressTracker.update` for a given
`step` and `sub_progress`, with Python's float arithmetic modelled exactly
over ℚ and `int()` (truncation of a nonnegative value) as `Int.floor`. -/
def overall_progress (step : Nat) (sub_progress : Nat) : Int :=
  if sub_progress > 0 then
    Int.floor ((((step : ℚ) + (1 / (total_steps : ℚ)) * ((sub_progress : ℚ) / 100))
      / (total_steps : ℚ)) * 100)
  else
    Int.floor (((step : ℚ) / (total_steps : ℚ)) * 100)

/-- The percent formula asserted by the specification:
`floor(100 * (stage + subPercent/100) / totalStages)`.
This definition follows the spec's words, for comparison with
`overall_progress`, which follows the source. -/
def spec_claimed_percent (step : Nat) (sub_progress : Nat) : Int :=
  Int.floor ((100 : ℚ) * ((step : ℚ) + (sub_progress : ℚ) / 100) / (total_steps : ℚ))

/-- C3: the code's percent disagrees with the spec's formula.  At stage 0 with
sub-percent 100 the code computes 1 while the claimed formula gives 10: the
code's `step_increment` already contains the factor `1 / total_steps`, so the
sub-progress term is divided by the stage count twice. -/
theorem c3_code_at_failing_input :
    overall_progress 0 100 = 1 ∧ spec_claimed_percent 0 100 = 10 := by
  constructor <;> norm_num [overall_progress, spec_claimed_percent, total_steps]

/-- C4: at stage 9 with sub-percent 100 the code computes 91 (exact-rational
evaluation of its formula; IEEE doubles round the same expression to 90),
not the 100 the claim states. -/
theorem c4_code_at_failing_input :
    overall_progress 9 100 = 91 ∧ overall_progress 9 100 ≠ 100 := by
  norm_num [overall_progress, total_steps]

/-! ## String primitives

Computable models of the Python string operations used by the queue code:
`str.lower()` (ASCII case folding; the Korean letters involved have no case),
`str.strip()` (drop leading/trailing whitespace) and the substring test
`needle in haystack`. -/

/-- Python `str.lower()` on the inputs in play: ASCII case folding. -/
def lowerStr (s : String) : String := ⟨s.data.map Char.toLower⟩

/-- Drop leading and trailing whitespace from a character list. -/
def trimChars (l : List Char) : List Char :=
  ((l.dropWhile Char.isWhitespace).reverse.dropWhile Char.isWhitespace).reverse

/-- Python `str.strip()`. -/
def trimStr (s : String) : String := ⟨trimChars s.data⟩

/-- `needle.isPrefixOf hay`, or `needle` occurs somewhere further right. -/
def isSubListOf (needle : List Char) : List Char → Bool
  | [] => needle.isEmpty
  | c :: cs => needle.isPrefixOf (c :: cs) || isSubListOf needle cs

/-- Python `sub in s` for strings: `sub` is a contiguous substring of `s`
(the empty string is a substring of everything, as in Python). -/
def containsSubstring (s sub : String) : Bool := isSubListOf sub.data s.data

/-! ## FixedSheetsManager (complete_automation.py, lines 1096-1626)

A spreadsheet record, as delivered by the CSV / API backends, is an
association list of string fields.  `get_property_queue` normalizes
heterogeneous field names, classifies rows as pending and returns the
pending queue items. -/

/-- One backend row: field name ↦ raw string value. -/
def SheetRecord := List (String × String)

/-- `record[field]` lookup (`None` when the field is absent). -/
def getField (r : SheetRecord) (k : String) : Option String :=
  (r.find? (fun p => p.1 == k)).map (·.2)

/-- Python `record.get(k, d)`: stored value (even if falsy) when the key is
present, else the default. -/
def getFieldD (r : SheetRecord) (k : String) (d : String) : String :=
  (getField r k).getD d

/-- The `for field in fields: if field in record and record[field]: ... break`
pattern: first candidate field that is present with a truthy (non-empty)
value. -/
def findTruthyField (r : SheetRecord) : List String → Option String
  | [] => none
  | f :: fs =>
    match getField r f with
    | some v => if v == "" then findTruthyField r fs else some v
    | none => findTruthyField r fs

def status_fields : List String := ["status", "상태", "Status", "처리상태", "진행상태"]

def address_fields : List String := ["address", "주소", "Address", "부동산주소", "매물주소"]

def type_fields : List String :=
  ["property_type", "매물유형", "Type", "부동산유형", "PropertyType"]

def notice_fields : List String :=
  ["광고시유의사항", "광고시 유의사항", "advertising_notice", "유의사항", "notice",
   "Advertising Notice", "주의사항"]

def default_notice : String :=
  "본 영상은 정보 제공 목적으로 제작되었으며, 투자 권유가 아닙니다. 부동산 투자 시 신중한 검토가 필요합니다."

def waiting_keywords : List String := ["대기", "pending", "처리전", "신규", "new", ""]

/-- Line 1523: `any(keyword in status for keyword in waiting_keywords) or status == ''`
applied to the normalized (`lower().strip()`) status. -/
def is_pending_status (status : String) : Bool :=
  waiting_keywords.any (fun kw => containsSubstring status kw) || status == ""

/-- A pending queue item as assembled by `get_property_queue`
(lines 1526-1535). -/
structure QueueItem where
  row_id : Nat
  address : String
  property_type : String
  status : String
  priority : String
  created_date : String
  advertising_notice : String
  deriving Repr, DecidableEq

/-- Per-row body of the `get_property_queue` filtering loop (lines 1478-1536):
normalize the status / address / type / notice fields and keep the row when
it is classified pending and has an address.  `idx` is the zero-based
enumeration index, `nowStr` stands for `datetime.now().strftime('%Y-%m-%d')`. -/
def processRecord (nowStr : String) (idx : Nat) (record : SheetRecord) : Option QueueItem :=
  let status := match findTruthyField record status_fields with
    | some v => trimStr (lowerStr v)
    | none => ""
  let address := match findTruthyField record address_fields with
    | some v => trimStr v
    | none => ""
  let property_type := match findTruthyField record type_fields with
    | some v => trimStr v
    | none => "아파트"
  let notice := match findTruthyField record notice_fields with
    | some v => trimStr v
    | none => ""
  let advertising_notice := if notice == "" then default_notice else notice
  let is_pending := is_pending_status status
  if is_pending && !(address == "") then
    some {
      row_id := idx + 2
      address := address
      property_type := property_type
      status := getFieldD record "status" (getFieldD record "상태" "대기중")
      priority := getFieldD record "priority"
        (getFieldD record "우선순위" (getFieldD record "Priority" "medium"))
      created_date := getFieldD record "created_date" (getFieldD record "등록일" nowStr)
      advertising_notice := advertising_notice }
  else
    none

/-- Filter a backend record list down to the pending queue
(the `for idx, record in enumerate(records)` loop). -/
def filterPending (nowStr : String) (records : List SheetRecord) : List QueueItem :=
  records.enum.filterMap (fun p => processRecord nowStr p.1 p.2)

/-- `self.data_source` values of `FixedSheetsManager`. -/
inductive DataSource
  | noSource        -- "none"
  | mock            -- "mock"
  | service_account
  | oauth
  | public_csv
  | api_v4
  deriving Repr, DecidableEq

/-- The mutable state of `FixedSheetsManager` (lines 1099-1104).  The
`sheet` handle is abstracted as the records a successful
`sheet.get_all_records()` call would deliver (`none` = no handle). -/
structure SheetsManager where
  data_source : DataSource
  last_data : List SheetRecord
  sheet : Option (List SheetRecord)
  is_connected : Bool

/-- `FixedSheetsManager.__init__`. -/
def SheetsManager.init : SheetsManager :=
  { data_source := .noSource, last_data := [], sheet := none, is_connected := false }

/-- Outcome of the four connection strategies of `setup_sheets_connection`
(lines 1117-1122), plus library availability: `none` = the strategy fails,
`some records` = it succeeds and would deliver these backend rows. -/
structure ConnectionEnv where
  gspread_available : Bool
  service_account : Option (List SheetRecord)
  public_csv : Option (List SheetRecord)
  api_key : Option (List SheetRecord)
  oauth : Option (List SheetRecord)

/-- `setup_sheets_connection` (lines 1106-1138): without the Sheets library
fall straight to mock mode; otherwise try the four strategies in their fixed
order, first success wins; when every strategy fails set
`data_source = "mock"` and `is_connected = False`. -/
def setup_sheets_connection (env : ConnectionEnv) (m : SheetsManager) : SheetsManager :=
  if !env.gspread_available then
    { m with data_source := .mock }
  else match env.service_account with
  | some recs =>
    { m with data_source := .service_account, sheet := some recs, is_connected := true }
  | none => match env.public_csv with
    | some recs =>
      { m with data_source := .public_csv, last_data := recs, is_connected := true }
    | none => match env.api_key with
      | some recs =>
        { m with data_source := .api_v4, last_data := recs, is_connected := true }
      | none => match env.oauth with
        | some recs =>
          { m with data_source := .oauth, sheet := some recs, is_connected := true }
        | none =>
          { m with data_source := .mock, is_connected := false }

/-- `_get_mock_data` (lines 1549-1570): the fixed built-in 2-item sample
set, returned only from the `except` handler of `get_property_queue`. -/
def get_mock_data (nowStr : String) : List QueueItem :=
  [{ row_id := 1
     address := "서울시 강남구 대치동 아파트"
     property_type := "아파트"
     status := "대기중"
     priority := "high"
     created_date := nowStr
     advertising_notice := default_notice },
   { row_id := 2
     address := "서울시 서초구 반포동 오피스텔"
     property_type := "오피스텔"
     status := "대기중"
     priority := "medium"
     created_date := nowStr
     advertising_notice := "투자에는 리스크가 따르며, 투자 결과에 대한 책임은 투자자 본인에게 있습니다. 전문가와 상담 후 결정하시기 바랍니다." }]

/-- `get_property_queue` (lines 1453-1547): reconnect when no source was
chosen yet, pick the record list for the current source (sheet handle for
authenticated modes, cached data for CSV/API modes, empty list otherwise)
and filter it to the pending queue.  The body of the Python `try` cannot
raise — `setup_sheets_connection` and the per-row loop swallow their own
exceptions and a failed sheet read yields `records = []` — so the
`except: return self._get_mock_data()` line is unreachable and the function
is total. -/
def get_property_queue (env : ConnectionEnv) (nowStr : String) (m : SheetsManager) :
    SheetsManager × List QueueItem :=
  let m := if m.data_source == .noSource then setup_sheets_connection env m else m
  let records :=
    match m.data_source, m.sheet with
    | .service_account, some recs => recs
    | .oauth, some recs => recs
    | .public_csv, _ => m.last_data
    | .api_v4, _ => m.last_data
    | _, _ => []
  (m, filterPending nowStr records)

/-- An environment in which every connection strategy fails. -/
def allStrategiesFail : ConnectionEnv :=
  { gspread_available := true
    service_account := none
    public_csv := none
    api_key := none
    oauth := none }

/-- A backend row whose status says the work is finished. -/
def doneRecord : SheetRecord :=
  [("status", "완료"), ("address", "서울시 강남구 대치동")]

/-- C1: the code classifies a row with status `"완료"` (and `"done"`) as
pending and returns it from `get_property_queue` — the empty string sits in
`waiting_keywords` and `'' in status` is true for every status, so
`is_pending` never excludes anything.  The claim says such rows are
excluded. -/
theorem c1_code_at_failing_input :
    is_pending_status "완료" = true ∧ is_pending_status "done" = true ∧
      (get_property_queue allStrategiesFail "2026-10-12"
          { data_source := .public_csv, last_data := [doneRecord], sheet := none,
            is_connected := true }).2.map (·.address)
        = ["서울시 강남구 대치동"] := by
  refine ⟨by decide, by decide, by decide⟩

/-- C2 counterexample: starting from a fresh manager, when every connection
strategy fails `get_property_queue` returns the empty list — not the fixed
2-item built-in sample set the claim promises. -/
theorem c2_counterexample :
    (get_property_queue allStrategiesFail "2026-10-12" SheetsManager.init).2 = [] ∧
      (get_mock_data "2026-10-12").length = 2 := by
  refine ⟨by decide, by decide⟩

/-- C2 amended: for every environment in which all four connection
strategies fail and every fresh (not yet connected) manager,
`get_property_queue` returns the empty list (it neither raises nor returns
the mock sample set); the manager is left in mock mode, disconnected. -/
theorem c2_amended_total_failure_yields_empty (env : ConnectionEnv) (nowStr : String)
    (m : SheetsManager)
    (hg : env.gspread_available = true)
    (hsa : env.service_account = none) (hcsv : env.public_csv = none)
    (hapi : env.api_key = none) (hoauth : env.oauth = none)
    (hm : m.data_source = .noSource) :
    (get_property_queue env nowStr m).2 = [] ∧
      (get_property_queue env nowStr m).1.data_source = .mock ∧
      (get_property_queue env nowStr m).1.is_connected = false := by
  simp only [get_property_queue, setup_sheets_connection, hm, hg, hsa, hcsv, hapi, hoauth]
  simp [filterPending]

/-- Witness for `c2_amended_total_failure_yields_empty` at the concrete
all-fail environment and the freshly initialized manager. -/
theorem c2_amended_witness :
    (get_property_queue allStrategiesFail "2026-10-12" SheetsManager.init).2 = [] ∧
      (get_property_queue allStrategiesFail "2026-10-12"
        SheetsManager.init).1.data_source = .mock ∧
      (get_property_queue allStrategiesFail "2026-10-12"
        SheetsManager.init).1.is_connected = false :=
  c2_amended_total_failure_yields_empty allStrategiesFail "2026-10-12" SheetsManager.init
    rfl rfl rfl rfl rfl rfl

/-! ## Pipeline (`CompleteAutomationSystem.run_full_automation_with_notice`,
complete_automation.py lines 2491-2571)

The content-generation stages delegate to helper methods / backends; each
call sits inside the single top-level `try` and may raise, so every stage is
modelled as an `Except String`-valued environment function.  Status
write-backs (`update_status`, which itself never raises) are recorded as a
trace of `(row, status, url)` triples. -/

/-- The `ContentResult` dataclass (lines 143-155). -/
structure ContentResult where
  video_file : String
  script : String
  ppt_file : String
  voice_file : String
  subtitle_file : String
  thumbnail_file : String
  youtube_url : String
  success : Bool
  error_message : Option String
  sheets_row_id : Option Nat
  deriving Repr, DecidableEq

/-- The `PropertyData` dataclass (lines 127-140). -/
structure PropertyData where
  address : String
  property_type : String
  average_price : String
  recent_trades : List String
  price_trend : String
  market_analysis : String
  school_info : String
  transport_info : String
  advertising_notice : String
  contact_info : String
  brand_message : String
  deriving Repr, DecidableEq

/-- The script dict built by `_generate_branded_script_with_notice`
(lines 2599-2604). -/
structure ScriptData where
  full_script : String
  duration : String
  word_count : Nat
  advertising_notice : String
  deriving Repr, DecidableEq

/-- One `update_status(row_id, status, url)` call. -/
abbrev StatusUpdate := Nat × String × String

/-- The stage backends invoked by `run_full_automation_with_notice`; each
may raise (modelled as `.error msg`). -/
structure PipelineEnv where
  mock_property_data : String → String → Except String PropertyData
  generate_branded_script : PropertyData → Except String ScriptData
  create_branded_ppt : ScriptData → PropertyData → Except String String
  create_thumbnail : PropertyData → ScriptData → Except String String
  generate_voice_and_subtitles : ScriptData → Except String (String × String)
  create_real_video : String → String → String → String → Except String String
  upload_to_youtube : String → PropertyData → String → Except String String

/-- Stages 1-8 of the `try` body (lines 2501-2533), in source order, each
feeding the artifacts of the earlier stages.  Returns
`(video, script, ppt, voice, subtitle, thumbnail, youtube_url)`. -/
def pipeline_stages (env : PipelineEnv) (property_address advertising_notice : String) :
    Except String (String × ScriptData × String × String × String × String × String) := do
  let property_data ← env.mock_property_data property_address advertising_notice
  let script_data ← env.generate_branded_script property_data
  let ppt_file ← env.create_branded_ppt script_data property_data
  let thumbnail_file ← env.create_thumbnail property_data script_data
  let vs ← env.generate_voice_and_subtitles script_data
  let video_file ← env.create_real_video ppt_file vs.1 vs.2 thumbnail_file
  let youtube_url ← env.upload_to_youtube video_file property_data script_data.full_script
  pure (video_file, script_data, ppt_file, vs.1, vs.2, thumbnail_file, youtube_url)

/-- Python truthiness of `sheets_row_id` (`if sheets_row_id:`): `None` and
`0` are falsy. -/
def rowTruthy : Option Nat → Bool
  | none => false
  | some r => r != 0

/-- `run_full_automation_with_notice`: run the stages; on success write
`"완료"` (done) with the video URL when a truthy row id was given and return
a success result; on any exception fall to the single `except` handler
(lines 2555-2571), which writes `"오류"` (error) once and returns a failure
result whose artifact fields are all empty.  The function is total: no
exception propagates. -/
def run_full_automation_with_notice (env : PipelineEnv)
    (property_address property_type advertising_notice : String)
    (sheets_row_id : Option Nat) : ContentResult × List StatusUpdate :=
  match pipeline_stages env property_address advertising_notice with
  | .ok (video_file, script_data, ppt_file, voice_file, subtitle_file,
         thumbnail_file, youtube_url) =>
    let updates : List StatusUpdate := match sheets_row_id with
      | some r => if r != 0 then [(r, "완료", youtube_url)] else []
      | none => []
    ({ video_file := video_file
       script := script_data.full_script
       ppt_file := ppt_file
       voice_file := voice_file
       subtitle_file := subtitle_file
       thumbnail_file := thumbnail_file
       youtube_url := youtube_url
       success := true
       error_message := none
       sheets_row_id := sheets_row_id }, updates)
  | .error e =>
    let updates : List StatusUpdate := match sheets_row_id with
      | some r => if r != 0 then [(r, "오류", "")] else []
      | none => []
    ({ video_file := ""
       script := ""
       ppt_file := ""
       voice_file := ""
       subtitle_file := ""
       thumbnail_file := ""
       youtube_url := ""
       success := false
       error_message := some e
       sheets_row_id := sheets_row_id }, updates)

/-- C5: when any stage raises, the top-level handler yields a failure result
carrying the exception text with every artifact path empty, and — for a
truthy row id — exactly one `"오류"` status write-back; the exception never
propagates (`run_full_automation_with_notice` is total by construction). -/
theorem c5_pipeline_failure_policy (env : PipelineEnv)
    (property_address property_type advertising_notice : String)
    (sheets_row_id : Option Nat) (e : String)
    (h : pipeline_stages env property_address advertising_notice = .error e) :
    (run_full_automation_with_notice env property_address property_type
        advertising_notice sheets_row_id).1
      = { video_file := "", script := "", ppt_file := "", voice_file := "",
          subtitle_file := "", thumbnail_file := "", youtube_url := "",
          success := false, error_message := some e,
          sheets_row_id := sheets_row_id } ∧
    (run_full_automation_with_notice env property_address property_type
        advertising_notice sheets_row_id).2
      = (match sheets_row_id with
         | some r => if r != 0 then [(r, "오류", "")] else []
         | none => []) := by
  constructor
  · simp [run_full_automation_with_notice, h]
  · simp only [run_full_automation_with_notice, h]

/-- A concrete environment whose first stage raises `"boom"`. -/
def boomEnv : PipelineEnv :=
  { mock_property_data := fun _ _ => .error "boom"
    generate_branded_script := fun _ => .error "boom"
    create_branded_ppt := fun _ _ => .ok ""
    create_thumbnail := fun _ _ => .ok ""
    generate_voice_and_subtitles := fun _ => .ok ("", "")
    create_real_video := fun _ _ _ _ => .ok ""
    upload_to_youtube := fun _ _ _ => .ok "" }

/-- Witness for `c5_pipeline_failure_policy`: the failing stage environment
at row id 5 — exactly one `"오류"` write-back. -/
theorem c5_pipeline_failure_policy_witness :
    (run_full_automation_with_notice boomEnv "서울시 강남구" "아파트" "" (some 5)).1
      = { video_file := "", script := "", ppt_file := "", voice_file := "",
          subtitle_file := "", thumbnail_file := "", youtube_url := "",
          success := false, error_message := some "boom",
          sheets_row_id := some 5 } ∧
    (run_full_automation_with_notice boomEnv "서울시 강남구" "아파트" "" (some 5)).2
      = [(5, "오류", "")] :=
  c5_pipeline_failure_policy boomEnv "서울시 강남구" "아파트" "" (some 5) "boom" rfl

/-! ## YouTubeUploader (complete_automation.py, lines 607-681) -/

/-- Mutable state of `YouTubeUploader` (`youtube_service` abstracted to
whether the handle is set). -/
structure UploaderState where
  api_available : Bool
  youtube_service : Bool
  auto_upload_mode : Bool
  deriving Repr, DecidableEq

/-- `YouTubeUploader.__init__` (lines 610-614). -/
def uploaderInit (api_available : Bool) : UploaderState :=
  { api_available := api_available, youtube_service := false, auto_upload_mode := false }

/-- `set_auto_upload_mode` (lines 616-619). -/
def set_auto_upload_mode (u : UploaderState) (enabled : Bool) : UploaderState :=
  { u with auto_upload_mode := enabled }

/-- Observable outcome of one `upload_video_with_confirmation` call:
the returned `(success, message)` pair plus whether the confirmation gate
was consulted and whether an upload was attempted. -/
structure UploadOutcome where
  success : Bool
  message : String
  prompted : Bool
  upload_attempted : Bool
  deriving Repr, DecidableEq

/-- The user-cancellation text of line 666. -/
def cancel_message : String := "사용자가 업로드를 취소했습니다."

/-- `upload_video_with_confirmation` (lines 652-681): outside auto-upload
mode, ask the confirmation gate (`confirm_answer` abstracts
`_show_upload_confirmation`) and return the cancellation failure when it
says no; otherwise — or straight away in auto-upload mode — perform the real
or the mock upload (`real_result` / `mock_result` abstract
`_upload_to_youtube` / `_mock_upload`). -/
def upload_video_with_confirmation (u : UploaderState) (confirm_answer : Bool)
    (real_result mock_result : Bool × String) : UploadOutcome :=
  if !u.auto_upload_mode then
    if !confirm_answer then
      { success := false, message := cancel_message, prompted := true,
        upload_attempted := false }
    else
      let r := if u.youtube_service then real_result else mock_result
      { success := r.1, message := r.2, prompted := true, upload_attempted := true }
  else
    let r := if u.youtube_service then real_result else mock_result
    { success := r.1, message := r.2, prompted := false, upload_attempted := true }

/-- C8: with the auto-upload flag set, publishing proceeds with no
confirmation prompt; with the flag clear and the gate answering no, the call
returns the distinguishable user-cancellation failure without attempting the
upload. -/
theorem c8_confirmation_gate (u : UploaderState) (confirm_answer : Bool)
    (real_result mock_result : Bool × String) :
    (upload_video_with_confirmation (set_auto_upload_mode u true) confirm_answer
        real_result mock_result).prompted = false ∧
    (upload_video_with_confirmation (set_auto_upload_mode u true) confirm_answer
        real_result mock_result).upload_attempted = true ∧
    upload_video_with_confirmation (set_auto_upload_mode u false) false
        real_result mock_result
      = { success := false, message := cancel_message, prompted := true,
          upload_attempted := false } := by
  refine ⟨?_, ?_, ?_⟩ <;>
    simp [upload_video_with_confirmation, set_auto_upload_mode]

/-! ## AutoMonitoringManager (complete_automation.py, lines 884-1091)

The monitoring loop's per-item path (`_process_single_item`) calls the queue
write-back, the pipeline and the completion notification; the whole body is
wrapped in `try`/`except`, so these collaborators are modelled as
`Except`-valued environment functions.  The loop-local state is the
`processed_items` set (a duplicate-free string list) plus the trace of
status write-backs. -/

/-- Loop-local mutable state: `self.processed_items` and the trace of
`update_status` calls issued so far. -/
structure MonState where
  processed : List String
  updates : List StatusUpdate

/-- Collaborators of `_process_single_item`, each allowed to raise. -/
structure ItemEnv where
  update_status : Nat → String → String → Except String Unit
  run_pipeline : String → String → String → Nat → Except String ContentResult
  notify : String → ContentResult → Except String Unit

/-- The composite key recorded by `_process_single_item` (line 995):
the row id and the *stripped* address. -/
def itemKeyProcessed (it : QueueItem) : String :=
  toString it.row_id ++ "_" ++ trimStr it.address

/-- The composite key used by the discovery filter of
`_check_and_process_new_items` (line 967): the row id and the *raw*
address. -/
def itemKeyCheck (it : QueueItem) : String :=
  toString it.row_id ++ "_" ++ it.address

/-- `_process_single_item` (lines 988-1052).  Items without an address are
skipped and marked seen.  Otherwise: mark `"처리중"` (in progress), run the
pipeline, mark `"완료"`/`"오류"` from the outcome, record the key, where any
raise falls to the `except` handler, which records the key anyway and then
attempts a best-effort `"오류"` write (itself allowed to fail silently). -/
def process_single_item (env : ItemEnv) (s : MonState) (item : QueueItem) : MonState :=
  let address := trimStr item.address
  let row_id := item.row_id
  let item_id := toString row_id ++ "_" ++ address
  if address == "" then
    { s with processed := s.processed.insert item_id }
  else
    let fail : List StatusUpdate → String → MonState := fun upds e =>
      let errMsg := "처리 실패: " ++ (⟨e.data.take 100⟩ : String)
      let upds := match env.update_status row_id "오류" errMsg with
        | .ok _ => upds ++ [(row_id, "오류", errMsg)]
        | .error _ => upds
      { processed := s.processed.insert item_id, updates := upds }
    match env.update_status row_id "처리중" "" with
    | .error e => fail s.updates e
    | .ok _ =>
      let upds1 := s.updates ++ [(row_id, "처리중", "")]
      match env.run_pipeline address item.property_type item.advertising_notice row_id with
      | .error e => fail upds1 e
      | .ok result =>
        let status := if result.success then "완료" else "오류"
        let youtube_url := if result.success then result.youtube_url
          else "오류: " ++ result.error_message.getD "None"
        match (if result.success then env.notify address result else .ok ()) with
        | .error e => fail upds1 e
        | .ok _ =>
          match env.update_status row_id status youtube_url with
          | .error e => fail upds1 e
          | .ok _ =>
            { processed := s.processed.insert item_id,
              updates := upds1 ++ [(row_id, status, youtube_url)] }

/-- The `new_items` filter of `_check_and_process_new_items`
(lines 964-969): pending items whose raw-address composite key is not yet in
`processed_items`. -/
def new_items (s : MonState) (pending : List QueueItem) : List QueueItem :=
  pending.filter (fun it => !(decide (itemKeyCheck it ∈ s.processed)))

/-- `_check_and_process_new_items` (lines 946-986) in the steady running
state (no stop/shutdown signal arrives mid-poll): process the new items in
list order. -/
def check_and_process_new_items (env : ItemEnv) (s : MonState)
    (pending : List QueueItem) : MonState :=
  (new_items s pending).foldl (process_single_item env) s

/-- Every control path of `_process_single_item` records the composite key
of the item (row id + stripped address) — including the skip path and every
exception path. -/
theorem processed_key_mem (env : ItemEnv) (s : MonState) (item : QueueItem) :
    itemKeyProcessed item ∈ (process_single_item env s item).processed := by
  unfold process_single_item itemKeyProcessed
  dsimp only
  split
  · exact List.mem_insert_self _ _
  · split
    · exact List.mem_insert_self _ _
    · split
      · exact List.mem_insert_self _ _
      · split
        · exact List.mem_insert_self _ _
        · split
          · exact List.mem_insert_self _ _
          · exact List.mem_insert_self _ _

/-- `_process_single_item` never removes a key from the processed set. -/
theorem processed_mono (env : ItemEnv) (s : MonState) (item : QueueItem)
    (a : String) (h : a ∈ s.processed) :
    a ∈ (process_single_item env s item).processed := by
  unfold process_single_item
  dsimp only
  split
  · exact List.mem_insert_of_mem h
  · split
    · exact List.mem_insert_of_mem h
    · split
      · exact List.mem_insert_of_mem h
      · split
        · exact List.mem_insert_of_mem h
        · split
          · exact List.mem_insert_of_mem h
          · exact List.mem_insert_of_mem h

/-- Processed-set membership is preserved by a whole poll's fold. -/
theorem foldl_processed_mono (env : ItemEnv) (l : List QueueItem) (s : MonState)
    (a : String) (h : a ∈ s.processed) :
    a ∈ (l.foldl (process_single_item env) s).processed := by
  induction l generalizing s with
  | nil => exact h
  | cons it rest ih => exact ih _ (processed_mono env s it a h)

/-- After a poll's fold, every folded item's processed-key is recorded. -/
theorem foldl_processed_key_mem (env : ItemEnv) (l : List QueueItem) (s : MonState)
    (it : QueueItem) (h : it ∈ l) :
    itemKeyProcessed it ∈ (l.foldl (process_single_item env) s).processed := by
  induction l generalizing s with
  | nil => cases h
  | cons hd rest ih =>
    rcases List.mem_cons.mp h with rfl | hmem
    · exact foldl_processed_mono env rest _ _ (processed_key_mem env s it)
    · exact ih _ hmem

/-- When an item's address has no surrounding whitespace, the key recorded
by `_process_single_item` and the key tested by the discovery filter
coincide. -/
theorem itemKeyProcessed_eq_check (it : QueueItem)
    (h : trimStr it.address = it.address) : itemKeyProcessed it = itemKeyCheck it := by
  unfold itemKeyProcessed itemKeyCheck
  rw [h]

/-- An environment in which the pipeline run raises. -/
def pipelineBoomEnv : ItemEnv :=
  { update_status := fun _ _ _ => .ok ()
    run_pipeline := fun _ _ _ _ => .error "stage failure"
    notify := fun _ _ => .ok () }

/-! Every pending item the queue layer hands to the monitoring loop has a
whitespace-free address: `get_property_queue` builds each item's address as
`str(record[field]).strip()` (line 1501) and drops address-less rows
(line 1525).  The next lemmas establish this invariant, under which the
discovery-filter key (raw address) and the processed-set key (stripped
address) coincide for every reachable work item. -/

/-- `dropWhile` is idempotent. -/
theorem dropWhile_dropWhile_self (p : Char → Bool) (l : List Char) :
    (l.dropWhile p).dropWhile p = l.dropWhile p := by
  induction l with
  | nil => rfl
  | cons a as ih =>
    rw [List.dropWhile_cons]
    by_cases h : p a
    · simp [h, ih]
    · simp [List.dropWhile_cons, h]

/-- `dropWhile` yields a suffix of its input. -/
theorem dropWhile_suffix_self (p : Char → Bool) (l : List Char) :
    l.dropWhile p <:+ l := by
  induction l with
  | nil => exact List.nil_suffix
  | cons a as ih =>
    rw [List.dropWhile_cons]
    by_cases h : p a
    · simpa [h] using ih.trans (List.suffix_cons a as)
    · simp [h]

/-- A prefix of a list with no dropWhile-prefix is itself dropWhile-free. -/
theorem dropWhile_eq_self_of_prefix (p : Char → Bool) (l P : List Char)
    (hl : l.dropWhile p = l) (hp : P <+: l) : P.dropWhile p = P := by
  cases P with
  | nil => rfl
  | cons a as =>
    obtain ⟨t, ht⟩ := hp
    subst ht
    rw [List.cons_append, List.dropWhile_cons] at hl
    rw [List.dropWhile_cons]
    by_cases h : p a
    · rw [if_pos h] at hl
      have hlen := congrArg List.length hl
      simp at hlen
      have hle := (List.dropWhile_sublist p (l := as ++ t)).length_le
      rw [List.length_append] at hle
      omega
    · simp [h]

/-- Stripping whitespace is idempotent on character lists. -/
theorem trimChars_idem (l : List Char) : trimChars (trimChars l) = trimChars l := by
  have hYd := dropWhile_dropWhile_self Char.isWhitespace l
  have hr := dropWhile_dropWhile_self Char.isWhitespace
    (l.dropWhile Char.isWhitespace).reverse
  have hmY : ((l.dropWhile Char.isWhitespace).reverse.dropWhile
      Char.isWhitespace).reverse <+: l.dropWhile Char.isWhitespace := by
    have hsuf := dropWhile_suffix_self Char.isWhitespace
      (l.dropWhile Char.isWhitespace).reverse
    have h2 := List.reverse_prefix.mpr hsuf
    rwa [List.reverse_reverse] at h2
  have hm := dropWhile_eq_self_of_prefix Char.isWhitespace _ _ hYd hmY
  unfold trimChars
  rw [hm, List.reverse_reverse, hr]

/-- Python `str.strip()` is idempotent. -/
theorem trimStr_idem (s : String) : trimStr (trimStr s) = trimStr s :=
  congrArg String.mk (trimChars_idem s.data)

/-- Every item assembled by the queue's per-row body carries a stripped
address (line 1501 applies `.strip()`, line 1525 drops empty addresses). -/
theorem processRecord_address_trimmed (nowStr : String) (idx : Nat)
    (record : SheetRecord) (it : QueueItem)
    (h : processRecord nowStr idx record = some it) :
    trimStr it.address = it.address := by
  unfold processRecord at h
  rcases hf : findTruthyField record address_fields with _ | v <;>
    rw [hf] at h <;> dsimp only at h
  · simp at h
  · split at h
    · injection h with h2
      subst h2
      exact trimStr_idem v
    · exact Option.noConfusion h

/-- Every item of a filtered pending queue carries a stripped address. -/
theorem filterPending_address_trimmed (nowStr : String)
    (records : List SheetRecord) (it : QueueItem)
    (h : it ∈ filterPending nowStr records) :
    trimStr it.address = it.address := by
  unfold filterPending at h
  rcases List.mem_filterMap.mp h with ⟨p, _, hp⟩
  exact processRecord_address_trimmed nowStr p.1 p.2 it hp

/-- Every pending item `get_property_queue` returns carries a stripped
address. -/
theorem get_property_queue_address_trimmed (cenv : ConnectionEnv)
    (nowStr : String) (m : SheetsManager) (it : QueueItem)
    (h : it ∈ (get_property_queue cenv nowStr m).2) :
    trimStr it.address = it.address := by
  simp only [get_property_queue] at h
  exact filterPending_address_trimmed _ _ _ h

/-- A record for a freshly submitted pending row. -/
def sampleRecord : SheetRecord :=
  [("address", "서울시 강남구 대치동"), ("status", "대기중")]

/-- A sheets manager holding `sampleRecord` over the cached-CSV source. -/
def csvManager : SheetsManager :=
  { data_source := .public_csv, last_data := [sampleRecord], sheet := none,
    is_connected := true }

/-- The queue item `get_property_queue` produces from `sampleRecord`. -/
def sampleItem : QueueItem :=
  { row_id := 2, address := "서울시 강남구 대치동", property_type := "아파트",
    status := "대기중", priority := "medium", created_date := "2026-10-12",
    advertising_notice := default_notice }

/-- C6: for every collaborator environment — including environments whose
pipeline or write-back raises anywhere in the per-item path — and every work
item actually returned by `get_property_queue`, the item's composite
identity key is added to ProcessedSet, the key the discovery filter tests is
that same key (queue-produced addresses are already stripped), and the item
is therefore never picked out of any later pending list again. -/
theorem c6_exception_fail_closed (cenv : ConnectionEnv) (nowStr : String)
    (m : SheetsManager) (env : ItemEnv) (s : MonState) (item : QueueItem)
    (h : item ∈ (get_property_queue cenv nowStr m).2) :
    itemKeyProcessed item ∈ (process_single_item env s item).processed ∧
      itemKeyCheck item ∈ (process_single_item env s item).processed ∧
      ∀ pending : List QueueItem,
        item ∉ new_items (process_single_item env s item) pending := by
  have ht := get_property_queue_address_trimmed cenv nowStr m item h
  have h1 := processed_key_mem env s item
  have h2 : itemKeyCheck item ∈ (process_single_item env s item).processed := by
    rw [← itemKeyProcessed_eq_check item ht]
    exact h1
  refine ⟨h1, h2, fun pending hmem => ?_⟩
  unfold new_items at hmem
  have h3 := (List.mem_filter.mp hmem).2
  simp [h2] at h3

/-- Witness for `c6_exception_fail_closed`: the raising pipeline environment
on the queue item produced from `sampleRecord`. -/
theorem c6_exception_fail_closed_witness :
    itemKeyProcessed sampleItem
        ∈ (process_single_item pipelineBoomEnv ⟨[], []⟩ sampleItem).processed ∧
      itemKeyCheck sampleItem
        ∈ (process_single_item pipelineBoomEnv ⟨[], []⟩ sampleItem).processed ∧
      ∀ pending : List QueueItem,
        sampleItem ∉ new_items
          (process_single_item pipelineBoomEnv ⟨[], []⟩ sampleItem) pending :=
  c6_exception_fail_closed allStrategiesFail "2026-10-12" csvManager
    pipelineBoomEnv ⟨[], []⟩ sampleItem (by decide)

/-- For a pending list all of whose addresses are whitespace-free — as every
list the queue layer produces is — one poll records every item's discovery
key in the processed set and a second poll over the unchanged list yields
zero new items. -/
theorem idempotent_discovery_of_trimmed (env : ItemEnv) (s : MonState)
    (pending : List QueueItem)
    (h : ∀ it ∈ pending, trimStr it.address = it.address) :
    (∀ it ∈ pending,
        itemKeyCheck it ∈ (check_and_process_new_items env s pending).processed) ∧
      new_items (check_and_process_new_items env s pending) pending = [] := by
  have hmem : ∀ it ∈ pending,
      itemKeyCheck it ∈ (check_and_process_new_items env s pending).processed := by
    intro it hit
    unfold check_and_process_new_items
    by_cases hs : itemKeyCheck it ∈ s.processed
    · exact foldl_processed_mono env _ s _ hs
    · have hnew : it ∈ new_items s pending := by
        unfold new_items
        refine List.mem_filter.mpr ⟨hit, ?_⟩
        simp [hs]
      rw [← itemKeyProcessed_eq_check it (h it hit)]
      exact foldl_processed_key_mem env _ s it hnew
  refine ⟨hmem, ?_⟩
  unfold new_items
  rw [List.filter_eq_nil_iff]
  intro it hit
  simp [hmem it hit]

/-- C7: for every connection environment, manager state and collaborator
environment, a poll over the pending list `get_property_queue` returns
leaves every item's composite `(row id, subject)` key in the processed set,
and a second poll over the same unchanged pending list yields zero new
items — the de-duplication key includes the subject, and queue-produced
subjects are stripped, so discovery and processed-set keys always agree. -/
theorem c7_idempotent_discovery (cenv : ConnectionEnv) (nowStr : String)
    (m : SheetsManager) (env : ItemEnv) (s : MonState) :
    (∀ it ∈ (get_property_queue cenv nowStr m).2,
        itemKeyCheck it
          ∈ (check_and_process_new_items env s
              (get_property_queue cenv nowStr m).2).processed) ∧
      new_items (check_and_process_new_items env s
            (get_property_queue cenv nowStr m).2)
          (get_property_queue cenv nowStr m).2 = [] :=
  idempotent_discovery_of_trimmed env s (get_property_queue cenv nowStr m).2
    (fun it hit => get_property_queue_address_trimmed cenv nowStr m it hit)

/-! ## The interval wait of `_monitoring_loop` (lines 934-938)

    for _ in range(self.check_interval):
        if not self.is_running or SHUTDOWN_FLAG:
            break
        time.sleep(1)

The flags are re-read before every 1-second sleep; `running i` / `shutdown i`
are the values observed at the i-th check. -/

/-- Number of 1-second sleeps the `for` loop performs: iterate at most
`fuel` times from check index `i`, sleeping once per iteration while the
continue-condition holds. -/
def loop_sleeps (keep : Nat → Bool) : Nat → Nat → Nat
  | 0, _ => 0
  | fuel + 1, i => if keep i then 1 + loop_sleeps keep fuel (i + 1) else 0

/-- The interval wait: continue while `is_running` and not `SHUTDOWN_FLAG`. -/
def monitor_wait (running shutdown : Nat → Bool) (check_interval : Nat) : Nat :=
  loop_sleeps (fun i => running i && !(shutdown i)) check_interval 0

/-- `self.check_interval = 300` (line 891). -/
def default_check_interval : Nat := 300

/-- A continue-condition observed false at check `i + j` bounds the sleeps
started from check `i` by `j`. -/
theorem loop_sleeps_le_of_stop (keep : Nat → Bool) :
    ∀ (fuel i j : Nat), keep (i + j) = false → loop_sleeps keep fuel i ≤ j := by
  intro fuel
  induction fuel with
  | zero => intro i j _; exact Nat.zero_le j
  | succ n ih =>
    intro i j hstop
    unfold loop_sleeps
    by_cases hk : keep i = true
    · rw [hk]
      simp only [if_true]
      cases j with
      | zero => rw [Nat.add_zero] at hstop; rw [hk] at hstop; cases hstop
      | succ j' =>
        have : keep ((i + 1) + j') = false := by
          rw [show (i + 1) + j' = i + (j' + 1) by omega]
          exact hstop
        have := ih (i + 1) j' this
        omega
    · rw [Bool.not_eq_true] at hk
      rw [hk]
      simp

/-- The loop performs at most `fuel` sleeps. -/
theorem loop_sleeps_le_fuel (keep : Nat → Bool) :
    ∀ (fuel i : Nat), loop_sleeps keep fuel i ≤ fuel := by
  intro fuel
  induction fuel with
  | zero => intro i; exact Nat.le_refl 0
  | succ n ih =>
    intro i
    unfold loop_sleeps
    by_cases hk : keep i = true
    · rw [hk]
      simp only [if_true]
      have := ih (i + 1)
      omega
    · rw [Bool.not_eq_true] at hk; rw [hk]; simp

/-- C9: the interval wait re-checks the stop flag and the global shutdown
flag before every 1-second sleep, so once either flag is observed at check
`k` the loop sleeps at most `k` seconds in total — one further increment
after the signal arrives during increment `k - 1` — and never more than the
full `check_interval`. -/
theorem c9_cancellation_promptness (running shutdown : Nat → Bool)
    (check_interval k : Nat)
    (h : running k = false ∨ shutdown k = true) :
    monitor_wait running shutdown check_interval ≤ k ∧
      monitor_wait running shutdown check_interval ≤ check_interval := by
  constructor
  · apply loop_sleeps_le_of_stop
    rw [Nat.zero_add]
    rcases h with hr | hs
    · simp [hr]
    · simp [hs]
  · exact loop_sleeps_le_fuel _ check_interval 0

/-- Witness for `c9_cancellation_promptness`: `stop()` observed at the third
check of a default 300-second interval; the loop sleeps at most 3 seconds. -/
theorem c9_cancellation_promptness_witness :
    monitor_wait (fun i => decide (i < 3)) (fun _ => false) default_check_interval ≤ 3 ∧
      monitor_wait (fun i => decide (i < 3)) (fun _ => false) default_check_interval
        ≤ default_check_interval :=
  c9_cancellation_promptness (fun i => decide (i < 3)) (fun _ => false)
    default_check_interval 3 (Or.inl (by decide))

/-! ## AutoMonitoringManager construction (lines 887-915) and
`CompleteAutomationSystem.__init__` (lines 2389-2410) -/

/-- State of `AutoMonitoringManager`: the running flag, check interval,
sheet URL (an attribute only assigned by `start_monitoring`), the processed
set and whether a background thread has been spawned. -/
structure MonitoringManager where
  is_running : Bool
  check_interval : Nat
  sheet_url : Option String
  processed_items : List String
  thread_started : Bool
  deriving Repr, DecidableEq

/-- The hard-coded spreadsheet URL of lines 895-896. -/
def default_sheet_url : String :=
  "https://docs.google.com/spreadsheets/d/1xXxaMYfdTytn3a28_c9AuAEMU4Uu3PLI99FfWZHbknE/edit?usp=sharing"

/-- `start_monitoring` (lines 898-915): a no-op (warning only) when already
running; otherwise set the running flag, record the URL and spawn the
background thread. -/
def start_monitoring (m : MonitoringManager) (sheet_url : String) : MonitoringManager :=
  if m.is_running then m
  else { m with is_running := true, sheet_url := some sheet_url, thread_started := true }

/-- `AutoMonitoringManager.__init__` (lines 887-896): initialize the fields,
then immediately call `start_monitoring` with the hard-coded default URL. -/
def monitoringManagerInit : MonitoringManager :=
  start_monitoring
    { is_running := false, check_interval := 300, sheet_url := none,
      processed_items := [], thread_started := false }
    default_sheet_url

/-- `CompleteAutomationSystem.__init__` (lines 2389-2410), restricted to the
components modelled here; line 2408 constructs the monitoring manager. -/
structure AutomationSystem where
  sheets_manager : SheetsManager
  youtube_uploader : UploaderState
  auto_monitor : MonitoringManager

def automationSystemInit (youtube_api_available : Bool) : AutomationSystem :=
  { sheets_manager := SheetsManager.init
    youtube_uploader := uploaderInit youtube_api_available
    auto_monitor := monitoringManagerInit }

/-- C10: constructing the automation system leaves the monitoring manager
already running on the hard-coded default sheet URL with a live background
thread, and every subsequent `start_monitoring` with a caller-chosen URL is
rejected as already-running (the state, URL included, is unchanged). -/
theorem c10_auto_start_on_construction (youtube_api_available : Bool) :
    (automationSystemInit youtube_api_available).auto_monitor.is_running = true ∧
    (automationSystemInit youtube_api_available).auto_monitor.sheet_url
        = some default_sheet_url ∧
    (automationSystemInit youtube_api_available).auto_monitor.thread_started = true ∧
    ∀ url : String,
      start_monitoring (automationSystemInit youtube_api_available).auto_monitor url
        = (automationSystemInit youtube_api_available).auto_monitor := by
  refine ⟨rfl, rfl, rfl, fun url => ?_⟩
  rfl

end RealEstate
